import Mathlib

/-!
Verification of the GambleSniffer scraping helper (`src/deploy/helper.py`).

The helper drives a Selenium browser session.  We model the session as a
`Driver`: for each primitive the Python code invokes on the driver
(navigation, the three fixed script evaluations, the scroll command, page
source retrieval) the `Driver` carries a behaviour, a function of the
current clock returning either a value or a raised Python exception.
Execution is explicit state passing over a `World` that records the
elapsed clock and the trace of commands issued to the browser.
Python dictionaries are association lists of `String × Value`.
-/

namespace GambleSniffer

/-- Python exceptions that the helper's `except` clauses distinguish:
`selenium.common.exceptions.TimeoutException`,
`selenium.common.exceptions.NoSuchElementException`, and any other
`Exception` carrying its description. -/
inductive PyExc where
  | timeoutException
  | noSuchElementException
  | otherError (msg : String)
  deriving DecidableEq, Repr

/-- Values stored in the Python result dictionaries: strings, booleans,
`None`, `datetime` values (modelled as the clock reading), and raw
exception objects (as stored by `exception_raised = e`). -/
inductive Value where
  | vStr (s : String)
  | vBool (b : Bool)
  | vNone
  | vTime (t : Nat)
  | vExc (e : PyExc)
  deriving DecidableEq, Repr

/-- A command issued to the browser session. -/
inductive Cmd where
  | navigate (url : String)
  | execScript (script : String)
  | sleep (n : Nat)
  | getPageSource
  deriving DecidableEq, Repr

/-- Script literal polled by `wait_until_page_ready`. -/
def readyStateScript : String := "return document.readyState"

/-- Script literal for the document scroll height query. -/
def scrollHeightScript : String := "return document.documentElement.scrollHeight"

/-- Script literal for the document client height query. -/
def clientHeightScript : String := "return document.documentElement.clientHeight"

/-- Script literal that scrolls to the bottom of the document. -/
def scrollToBottomScript : String := "window.scrollTo(0, document.body.scrollHeight);"

/-- Execution state: the elapsed clock (abstract time units, `datetime.now`
reads it) and the trace of commands issued to the browser so far. -/
structure World where
  clock : Nat
  trace : List Cmd
  deriving DecidableEq, Repr

/-- Issue a command: append it to the trace and advance the clock by the
command's duration. -/
def World.issue (w : World) (c : Cmd) (d : Nat) : World :=
  { clock := w.clock + d, trace := w.trace ++ [c] }

/-- A browser session behaviour.  Each field gives the outcome of one
primitive the Python code invokes, as a function of the clock at which it
is invoked; `Except.error` models the primitive raising an exception. -/
structure Driver where
  navigate : String → Nat → Except PyExc Unit
  navDuration : Nat
  readyState : Nat → Except PyExc String
  scrollHeight : Nat → Except PyExc Int
  clientHeight : Nat → Except PyExc Int
  scrollToBottom : Nat → Except PyExc Unit
  pageSource : Nat → Except PyExc String

/-- Model of `time.sleep(n)`: advances the clock by `n`. -/
def doSleep (w : World) (n : Nat) : World :=
  w.issue (.sleep n) n

/-- Embedding of `is_vertical_scrollbar_present`: evaluates the scroll-height
script, then the client-height script, and returns whether
`scroll_height > viewport_height`. -/
def is_vertical_scrollbar_present (d : Driver) (w : World) :
    Except PyExc Bool × World :=
  let w1 := w.issue (.execScript scrollHeightScript) 0
  match d.scrollHeight w.clock with
  | .error e => (.error e, w1)
  | .ok sh =>
    let w2 := w1.issue (.execScript clientHeightScript) 0
    match d.clientHeight w1.clock with
    | .error e => (.error e, w2)
    | .ok ch => (.ok (decide (sh > ch)), w2)

/-- One polling loop of `WebDriverWait(driver, 30).until(...)`, with fuel.
Each poll evaluates the ready-state script; a truthy comparison with
"complete" ends the wait; `NoSuchElementException` from the polled callable
is ignored by Selenium's wait (its default ignored exception) and polling
continues; any other exception propagates.  Between polls one time unit
elapses; exhausted fuel raises `TimeoutException`. -/
def waitPoll (d : Driver) : Nat → World → Except PyExc Unit × World
  | 0, w => (.error .timeoutException, w)
  | fuel + 1, w =>
    let w1 := w.issue (.execScript readyStateScript) 0
    match d.readyState w.clock with
    | .error .noSuchElementException =>
        waitPoll d fuel { clock := w1.clock + 1, trace := w1.trace }
    | .error e => (.error e, w1)
    | .ok s =>
        if s = "complete" then (.ok (), w1)
        else waitPoll d fuel { clock := w1.clock + 1, trace := w1.trace }

/-- Embedding of `wait_until_page_ready`: waits at most 30 time units for the
document ready-state to report "complete", polling once per time unit
(polls at offsets 0 through 30 inclusive, then raises). -/
def wait_until_page_ready (d : Driver) (w : World) :
    Except PyExc Unit × World :=
  waitPoll d 31 w

/-- Embedding of `provide_scraping_result_dict`: builds the six-key result dictionary. -/
def provide_scraping_result_dict (web_url : String) (is_gambling_site : Bool)
    (is_error : Bool) (scraped_elements : Value)
    (scraping_initiation_time : Nat) (exception_raised : Value) :
    List (String × Value) :=
  [("web_url", .vStr web_url),
   ("is_gambling_site", .vBool is_gambling_site),
   ("is_error", .vBool is_error),
   ("scraped_elements", scraped_elements),
   ("scraping_initiation_time", .vTime scraping_initiation_time),
   ("exception_raised", exception_raised)]

/-- The `try` block of `get_scraping_result`: navigate, wait until ready,
sleep 5, scroll to bottom when a vertical scrollbar is present, sleep 5,
retrieve the page source.  The first raised exception aborts the block. -/
def scrapingTryBlock (d : Driver) (url : String) (w : World) :
    Except PyExc String × World :=
  let wNav := w.issue (.navigate url) d.navDuration
  match d.navigate url w.clock with
  | .error e => (.error e, wNav)
  | .ok _ =>
    match wait_until_page_ready d wNav with
    | (.error e, w2) => (.error e, w2)
    | (.ok _, w2) =>
      let w3 := doSleep w2 5
      match is_vertical_scrollbar_present d w3 with
      | (.error e, w4) => (.error e, w4)
      | (.ok b, w4) =>
        match (if b then
                 (d.scrollToBottom w4.clock,
                  w4.issue (.execScript scrollToBottomScript) 0)
               else (.ok (), w4) : Except PyExc Unit × World) with
        | (.error e, w5) => (.error e, w5)
        | (.ok _, w5) =>
          let w6 := doSleep w5 5
          let w7 := w6.issue .getPageSource 0
          match d.pageSource w6.clock with
          | .error e => (.error e, w7)
          | .ok src => (.ok src, w7)

/-- The exception handlers of `get_scraping_result`:
`except TimeoutException` stores the string "Timeout Exception";
`except Exception as e` stores the exception object itself. -/
def handleScrapingExc : PyExc → Value
  | .timeoutException => .vStr "Timeout Exception"
  | e => .vExc e

/-- Embedding of `get_scraping_result`: runs the try block; the handlers and the
`finally` clause always return the dictionary, with `is_error` still `True`
unless the block completed, `scraped_elements` the retrieved source or
`None`, and the timestamp read (`datetime.now()`) when the dictionary is
built. -/
def get_scraping_result (web_url : String) (is_gambling_site : Bool)
    (d : Driver) (w : World) : List (String × Value) × World :=
  match scrapingTryBlock d web_url w with
  | (.ok src, w') =>
    (provide_scraping_result_dict web_url is_gambling_site false
      (.vStr src) w'.clock .vNone, w')
  | (.error e, w') =>
    (provide_scraping_result_dict web_url is_gambling_site true
      .vNone w'.clock (handleScrapingExc e), w')

/-- The `try` block of `get_crawling_scraping_result`: identical to the
scraping try block except that no navigation is issued. -/
def crawlingTryBlock (d : Driver) (w : World) :
    Except PyExc String × World :=
  match wait_until_page_ready d w with
  | (.error e, w2) => (.error e, w2)
  | (.ok _, w2) =>
    let w3 := doSleep w2 5
    match is_vertical_scrollbar_present d w3 with
    | (.error e, w4) => (.error e, w4)
    | (.ok b, w4) =>
      match (if b then
               (d.scrollToBottom w4.clock,
                w4.issue (.execScript scrollToBottomScript) 0)
             else (.ok (), w4) : Except PyExc Unit × World) with
      | (.error e, w5) => (.error e, w5)
      | (.ok _, w5) =>
        let w6 := doSleep w5 5
        let w7 := w6.issue .getPageSource 0
        match d.pageSource w6.clock with
        | .error e => (.error e, w7)
        | .ok src => (.ok src, w7)

/-- The exception handlers of `get_crawling_scraping_result`:
`except TimeoutException` stores "Timeout Exception",
`except NoSuchElementException` stores "The web is not loaded",
`except Exception as e` stores the exception object. -/
def handleCrawlingExc : PyExc → Value
  | .timeoutException => .vStr "Timeout Exception"
  | .noSuchElementException => .vStr "The web is not loaded"
  | .otherError m => .vExc (.otherError m)

/-- Embedding of `get_crawling_scraping_result`: runs the crawling try block and always
returns its five-key literal dictionary (no gambling-classification key). -/
def get_crawling_scraping_result (web_url : String) (d : Driver)
    (w : World) : List (String × Value) × World :=
  match crawlingTryBlock d w with
  | (.ok src, w') =>
    ([("web_url", .vStr web_url),
      ("is_error", .vBool false),
      ("scraped_elements", .vStr src),
      ("scraping_initiation_time", .vTime w'.clock),
      ("exception_raised", .vNone)], w')
  | (.error e, w') =>
    ([("web_url", .vStr web_url),
      ("is_error", .vBool true),
      ("scraped_elements", .vNone),
      ("scraping_initiation_time", .vTime w'.clock),
      ("exception_raised", handleCrawlingExc e)], w')

/-- Lookup of a key in a Python-dictionary model. -/
def dictGet (k : String) (r : List (String × Value)) : Option Value :=
  (r.find? (fun p => p.fst = k)).map Prod.snd

/-- Number of scroll-to-bottom commands in a trace. -/
def scrollCount (tr : List Cmd) : Nat :=
  tr.countP (fun c => decide (c = Cmd.execScript scrollToBottomScript))

/-- Commands the crawling variant is allowed to issue: ready-state polls,
the two height queries, the scroll command, sleeps and source retrieval —
never a navigation. -/
def crawlAllowedCmd : Cmd → Bool
  | .navigate _ => false
  | .execScript s =>
      s = readyStateScript || s = scrollHeightScript ||
      s = clientHeightScript || s = scrollToBottomScript
  | .sleep _ => true
  | .getPageSource => true

/-- Test behaviour: a page that is immediately ready, has a vertical
scrollbar (2000 over 800), and yields a fixed source. -/
def okDriver : Driver where
  navigate := fun _ _ => .ok ()
  navDuration := 2
  readyState := fun _ => .ok "complete"
  scrollHeight := fun _ => .ok 2000
  clientHeight := fun _ => .ok 800
  scrollToBottom := fun _ => .ok ()
  pageSource := fun _ => .ok "<html></html>"

/-- Test behaviour: a page that is immediately ready and has no vertical
scrollbar (equal heights). -/
def flatDriver : Driver where
  navigate := fun _ _ => .ok ()
  navDuration := 0
  readyState := fun _ => .ok "complete"
  scrollHeight := fun _ => .ok 800
  clientHeight := fun _ => .ok 800
  scrollToBottom := fun _ => .ok ()
  pageSource := fun _ => .ok "<html></html>"

/-- Test behaviour: a page whose ready-state never reports "complete". -/
def timeoutDriver : Driver where
  navigate := fun _ _ => .ok ()
  navDuration := 0
  readyState := fun _ => .ok "loading"
  scrollHeight := fun _ => .ok 0
  clientHeight := fun _ => .ok 0
  scrollToBottom := fun _ => .ok ()
  pageSource := fun _ => .ok ""

/-- Test behaviour: navigation raises a generic error (unreachable host). -/
def navFailDriver : Driver where
  navigate := fun _ _ => .error (.otherError "unreachable host")
  navDuration := 0
  readyState := fun _ => .ok "complete"
  scrollHeight := fun _ => .ok 0
  clientHeight := fun _ => .ok 0
  scrollToBottom := fun _ => .ok ()
  pageSource := fun _ => .ok ""

/-- Test behaviour: the page is ready but source retrieval raises
`NoSuchElementException`. -/
def noElementDriver : Driver where
  navigate := fun _ _ => .ok ()
  navDuration := 0
  readyState := fun _ => .ok "complete"
  scrollHeight := fun _ => .ok 100
  clientHeight := fun _ => .ok 200
  scrollToBottom := fun _ => .ok ()
  pageSource := fun _ => .error .noSuchElementException

/-- Initial execution state: clock zero, empty trace. -/
def w0 : World := ⟨0, []⟩

/-! ### Field lookups on the result dictionaries -/

lemma dictGet_provide_web_url (u : String) (g e : Bool) (s : Value) (t : Nat)
    (x : Value) :
    dictGet "web_url" (provide_scraping_result_dict u g e s t x) =
      some (.vStr u) := rfl

lemma dictGet_provide_gambling (u : String) (g e : Bool) (s : Value) (t : Nat)
    (x : Value) :
    dictGet "is_gambling_site" (provide_scraping_result_dict u g e s t x) =
      some (.vBool g) := rfl

lemma dictGet_provide_is_error (u : String) (g e : Bool) (s : Value) (t : Nat)
    (x : Value) :
    dictGet "is_error" (provide_scraping_result_dict u g e s t x) =
      some (.vBool e) := rfl

lemma dictGet_provide_scraped (u : String) (g e : Bool) (s : Value) (t : Nat)
    (x : Value) :
    dictGet "scraped_elements" (provide_scraping_result_dict u g e s t x) =
      some s := rfl

lemma dictGet_provide_time (u : String) (g e : Bool) (s : Value) (t : Nat)
    (x : Value) :
    dictGet "scraping_initiation_time" (provide_scraping_result_dict u g e s t x) =
      some (.vTime t) := rfl

lemma dictGet_provide_exc (u : String) (g e : Bool) (s : Value) (t : Nat)
    (x : Value) :
    dictGet "exception_raised" (provide_scraping_result_dict u g e s t x) =
      some x := rfl

lemma handleScrapingExc_ne_vNone (e : PyExc) : handleScrapingExc e ≠ .vNone := by
  cases e <;> simp [handleScrapingExc]

/-- C1 — For every input and browser behaviour, the record returned by
`get_scraping_result` satisfies the FetchResult invariant: `is_error` false
implies `scraped_elements` is a string (non-null) and `exception_raised` is
`None`; `is_error` true implies `scraped_elements` is `None` and
`exception_raised` is non-`None`. -/
theorem C1_fetch_result_invariant (url : String) (g : Bool) (d : Driver)
    (w : World) :
    (dictGet "is_error" (get_scraping_result url g d w).fst =
        some (.vBool false) →
      (∃ s, dictGet "scraped_elements" (get_scraping_result url g d w).fst =
          some (.vStr s)) ∧
      dictGet "exception_raised" (get_scraping_result url g d w).fst =
        some .vNone) ∧
    (dictGet "is_error" (get_scraping_result url g d w).fst =
        some (.vBool true) →
      dictGet "scraped_elements" (get_scraping_result url g d w).fst =
        some .vNone ∧
      ∃ v, dictGet "exception_raised" (get_scraping_result url g d w).fst =
          some v ∧ v ≠ .vNone) := by
  rcases h : scrapingTryBlock d url w with ⟨res, w'⟩
  cases res with
  | ok src =>
    simp only [get_scraping_result, h]
    refine ⟨fun _ => ⟨⟨src, dictGet_provide_scraped ..⟩, dictGet_provide_exc ..⟩,
      fun hfalse => ?_⟩
    rw [dictGet_provide_is_error] at hfalse
    simp at hfalse
  | error e =>
    simp only [get_scraping_result, h]
    refine ⟨fun htrue => ?_, fun _ =>
      ⟨dictGet_provide_scraped .., handleScrapingExc e,
        dictGet_provide_exc .., handleScrapingExc_ne_vNone e⟩⟩
    rw [dictGet_provide_is_error] at htrue
    simp at htrue

/-- Witness for C1: a successful run (scrollbar present, fixed source) and a
timed-out run, each satisfying the corresponding branch of the invariant. -/
theorem C1_fetch_result_invariant_witness :
    ((∃ s, dictGet "scraped_elements"
        (get_scraping_result "http://a" true okDriver w0).fst =
          some (.vStr s)) ∧
      dictGet "exception_raised"
        (get_scraping_result "http://a" true okDriver w0).fst =
          some .vNone) ∧
    (dictGet "scraped_elements"
        (get_scraping_result "http://a" true timeoutDriver w0).fst =
          some .vNone ∧
      ∃ v, dictGet "exception_raised"
          (get_scraping_result "http://a" true timeoutDriver w0).fst =
            some v ∧ v ≠ .vNone) :=
  ⟨(C1_fetch_result_invariant "http://a" true okDriver w0).1 rfl,
   (C1_fetch_result_invariant "http://a" true timeoutDriver w0).2 rfl⟩

/-- C8 — On both the success and the error path, the record returned by
`get_scraping_result` carries the input URL in `web_url` and the
caller-supplied classification flag in `is_gambling_site`, unchanged. -/
theorem C8_url_and_flag_passthrough (url : String) (g : Bool) (d : Driver)
    (w : World) :
    dictGet "web_url" (get_scraping_result url g d w).fst =
      some (.vStr url) ∧
    dictGet "is_gambling_site" (get_scraping_result url g d w).fst =
      some (.vBool g) := by
  rcases h : scrapingTryBlock d url w with ⟨res, w'⟩
  cases res with
  | ok src =>
    simp only [get_scraping_result, h]
    exact ⟨dictGet_provide_web_url .., dictGet_provide_gambling ..⟩
  | error e =>
    simp only [get_scraping_result, h]
    exact ⟨dictGet_provide_web_url .., dictGet_provide_gambling ..⟩

/-- C5 — When the two height queries return values `h` and `v`,
`is_vertical_scrollbar_present` returns `true` exactly when `h > v` (so
equal heights give `false`), leaves the clock unchanged, and issues only
the two read-only script evaluations — no side-effecting command. -/
theorem C5_scrollbar_iff_heights (d : Driver) (w : World) (h v : Int)
    (hs : d.scrollHeight w.clock = .ok h)
    (hc : d.clientHeight w.clock = .ok v) :
    ((is_vertical_scrollbar_present d w).fst = .ok true ↔ h > v) ∧
    (is_vertical_scrollbar_present d w).fst = .ok (decide (h > v)) ∧
    (is_vertical_scrollbar_present d w).snd.clock = w.clock ∧
    (is_vertical_scrollbar_present d w).snd.trace =
      w.trace ++ [Cmd.execScript scrollHeightScript,
                  Cmd.execScript clientHeightScript] := by
  simp [is_vertical_scrollbar_present, hs, hc, World.issue, List.append_assoc]

/-- Witness for C5: a concrete page with scroll height 2000 and client
height 800. -/
theorem C5_scrollbar_iff_heights_witness :
    ((is_vertical_scrollbar_present okDriver w0).fst = .ok true ↔
      (2000 : Int) > 800) ∧
    (is_vertical_scrollbar_present okDriver w0).fst =
      .ok (decide ((2000 : Int) > 800)) ∧
    (is_vertical_scrollbar_present okDriver w0).snd.clock = w0.clock ∧
    (is_vertical_scrollbar_present okDriver w0).snd.trace =
      w0.trace ++ [Cmd.execScript scrollHeightScript,
                   Cmd.execScript clientHeightScript] :=
  C5_scrollbar_iff_heights okDriver w0 2000 800 rfl rfl

/-! ### The ready-state wait -/

lemma waitPoll_complete (d : Driver) (n : Nat) (w : World)
    (hs : d.readyState w.clock = .ok "complete") :
    waitPoll d (n + 1) w =
      (.ok (), ⟨w.clock, w.trace ++ [Cmd.execScript readyStateScript]⟩) := by
  simp [waitPoll, hs, World.issue]

lemma waitPoll_step (d : Driver) (n : Nat) (w : World) (s : String)
    (hs : d.readyState w.clock = .ok s) (hne : s ≠ "complete") :
    waitPoll d (n + 1) w =
      waitPoll d n ⟨w.clock + 1,
        w.trace ++ [Cmd.execScript readyStateScript]⟩ := by
  simp only [waitPoll, hs, World.issue, Nat.add_zero, if_neg hne]

lemma waitPoll_first (d : Driver) :
    ∀ (n t : Nat) (w : World), t ≤ n →
      (∀ u, u < t → ∃ s, d.readyState (w.clock + u) = .ok s ∧
        s ≠ "complete") →
      d.readyState (w.clock + t) = .ok "complete" →
      (waitPoll d (n + 1) w).fst = .ok () ∧
      (waitPoll d (n + 1) w).snd.clock = w.clock + t := by
  intro n
  induction n with
  | zero =>
    intro t w ht _ hcomp
    interval_cases t
    rw [Nat.add_zero] at hcomp
    rw [waitPoll_complete d 0 w hcomp]
    simp
  | succ n ih =>
    intro t w ht hbefore hcomp
    cases t with
    | zero =>
      rw [Nat.add_zero] at hcomp
      rw [waitPoll_complete d (n + 1) w hcomp]
      simp
    | succ t =>
      obtain ⟨s0, hs0, hs0ne⟩ := hbefore 0 (Nat.succ_pos t)
      rw [Nat.add_zero] at hs0
      rw [waitPoll_step d (n + 1) w s0 hs0 hs0ne]
      have hrec := ih t
        ⟨w.clock + 1, w.trace ++ [Cmd.execScript readyStateScript]⟩
        (Nat.succ_le_succ_iff.mp ht)
        (fun u hu => by
          have := hbefore (u + 1) (Nat.succ_lt_succ hu)
          simpa [Nat.add_assoc, Nat.add_comm 1 u] using this)
        (by simpa [Nat.add_assoc, Nat.add_comm 1 t] using hcomp)
      refine ⟨hrec.1, ?_⟩
      rw [hrec.2]
      show w.clock + 1 + t = w.clock + (t + 1)
      omega

lemma waitPoll_timeout (d : Driver) :
    ∀ (n : Nat) (w : World),
      (∀ t, t ≤ n → ∃ s, d.readyState (w.clock + t) = .ok s ∧
        s ≠ "complete") →
      (waitPoll d (n + 1) w).fst = .error .timeoutException := by
  intro n
  induction n with
  | zero =>
    intro w hne
    obtain ⟨s, hs, hsne⟩ := hne 0 (Nat.le_refl 0)
    rw [Nat.add_zero] at hs
    simp [waitPoll, hs, hsne, World.issue]
  | succ n ih =>
    intro w hne
    obtain ⟨s0, hs0, hs0ne⟩ := hne 0 (Nat.zero_le _)
    rw [Nat.add_zero] at hs0
    rw [waitPoll_step d (n + 1) w s0 hs0 hs0ne]
    exact ih ⟨w.clock + 1, w.trace ++ [Cmd.execScript readyStateScript]⟩
      (fun u hu => by
        have := hne (u + 1) (Nat.succ_le_succ hu)
        simpa [Nat.add_assoc, Nat.add_comm 1 u] using this)

/-- C6 — `wait_until_page_ready` returns normally as soon as the polled
ready-state first evaluates to "complete" within the 30-unit window
(consuming exactly the time until that poll), and raises
`TimeoutException` when every poll in the window reports a non-"complete"
state. -/
theorem C6_wait_until_page_ready_spec (d : Driver) (w : World) :
    (∀ t, t ≤ 30 →
      (∀ u, u < t → ∃ s, d.readyState (w.clock + u) = .ok s ∧
        s ≠ "complete") →
      d.readyState (w.clock + t) = .ok "complete" →
      (wait_until_page_ready d w).fst = .ok () ∧
      (wait_until_page_ready d w).snd.clock = w.clock + t) ∧
    ((∀ t, t ≤ 30 → ∃ s, d.readyState (w.clock + t) = .ok s ∧
        s ≠ "complete") →
      (wait_until_page_ready d w).fst = .error .timeoutException) := by
  constructor
  · intro t ht hbefore hcomp
    exact waitPoll_first d 30 t w ht hbefore hcomp
  · intro hne
    exact waitPoll_timeout d 30 w hne

/-- Witness for C6: a page ready at the very first poll returns
immediately, and a page stuck in "loading" raises the timeout. -/
theorem C6_wait_until_page_ready_spec_witness :
    ((wait_until_page_ready okDriver w0).fst = .ok () ∧
      (wait_until_page_ready okDriver w0).snd.clock = w0.clock + 0) ∧
    (wait_until_page_ready timeoutDriver w0).fst =
      .error .timeoutException :=
  ⟨(C6_wait_until_page_ready_spec okDriver w0).1 0 (by decide)
      (fun u hu => absurd hu (Nat.not_lt_zero u)) rfl,
   (C6_wait_until_page_ready_spec timeoutDriver w0).2
      (fun t _ => ⟨"loading", rfl, by decide⟩)⟩

lemma waitPoll_stepNSE (d : Driver) (n : Nat) (w : World)
    (hs : d.readyState w.clock = .error .noSuchElementException) :
    waitPoll d (n + 1) w =
      waitPoll d n ⟨w.clock + 1,
        w.trace ++ [Cmd.execScript readyStateScript]⟩ := by
  simp only [waitPoll, hs, World.issue, Nat.add_zero]

lemma waitPoll_stepErr (d : Driver) (n : Nat) (w : World) (e : PyExc)
    (hs : d.readyState w.clock = .error e)
    (hne : e ≠ .noSuchElementException) :
    waitPoll d (n + 1) w =
      (.error e, ⟨w.clock, w.trace ++ [Cmd.execScript readyStateScript]⟩) := by
  cases e with
  | noSuchElementException => exact absurd rfl hne
  | timeoutException => simp [waitPoll, hs, World.issue]
  | otherError m => simp [waitPoll, hs, World.issue]

lemma waitPoll_shape (d : Driver) :
    ∀ (n : Nat) (w : World), ∃ k j,
      (waitPoll d n w).snd.trace =
        w.trace ++ List.replicate k (Cmd.execScript readyStateScript) ∧
      (waitPoll d n w).snd.clock = w.clock + j := by
  intro n
  induction n with
  | zero => exact fun w => ⟨0, 0, by simp [waitPoll]⟩
  | succ n ih =>
    intro w
    rcases hrs : d.readyState w.clock with e | s
    · by_cases he : e = .noSuchElementException
      · subst he
        rw [waitPoll_stepNSE d n w hrs]
        obtain ⟨k, j, htr, hck⟩ :=
          ih ⟨w.clock + 1, w.trace ++ [Cmd.execScript readyStateScript]⟩
        refine ⟨k + 1, j + 1, ?_, ?_⟩
        · rw [htr]
          simp [List.replicate_succ, List.append_assoc]
        · rw [hck]
          show w.clock + 1 + j = w.clock + (j + 1)
          omega
      · rw [waitPoll_stepErr d n w e hrs he]
        exact ⟨1, 0, by simp, by simp⟩
    · by_cases hc : s = "complete"
      · subst hc
        rw [waitPoll_complete d n w hrs]
        exact ⟨1, 0, by simp, by simp⟩
      · rw [waitPoll_step d n w s hrs hc]
        obtain ⟨k, j, htr, hck⟩ :=
          ih ⟨w.clock + 1, w.trace ++ [Cmd.execScript readyStateScript]⟩
        refine ⟨k + 1, j + 1, ?_, ?_⟩
        · rw [htr]
          simp [List.replicate_succ, List.append_assoc]
        · rw [hck]
          show w.clock + 1 + j = w.clock + (j + 1)
          omega

lemma wait_shape (d : Driver) (w : World) : ∃ k j,
    (wait_until_page_ready d w).snd.trace =
      w.trace ++ List.replicate k (Cmd.execScript readyStateScript) ∧
    (wait_until_page_ready d w).snd.clock = w.clock + j :=
  waitPoll_shape d 31 w

/-! ### Shape of the scrollbar query -/

lemma scrollbar_clock (d : Driver) (w : World) :
    (is_vertical_scrollbar_present d w).snd.clock = w.clock := by
  rcases h1 : d.scrollHeight w.clock with e | sh
  · simp [is_vertical_scrollbar_present, h1, World.issue]
  · rcases h2 : d.clientHeight w.clock with e | ch <;>
      simp [is_vertical_scrollbar_present, h1, h2, World.issue]

lemma scrollbar_trace (d : Driver) (w : World) :
    (is_vertical_scrollbar_present d w).snd.trace =
        w.trace ++ [Cmd.execScript scrollHeightScript] ∨
    (is_vertical_scrollbar_present d w).snd.trace =
        w.trace ++ [Cmd.execScript scrollHeightScript,
                    Cmd.execScript clientHeightScript] := by
  rcases h1 : d.scrollHeight w.clock with e | sh
  · left
    simp [is_vertical_scrollbar_present, h1, World.issue]
  · right
    rcases h2 : d.clientHeight w.clock with e | ch <;>
      simp [is_vertical_scrollbar_present, h1, h2, World.issue,
        List.append_assoc]

lemma scrollbar_ok_trace (d : Driver) (w : World) (b : Bool)
    (h : (is_vertical_scrollbar_present d w).fst = .ok b) :
    (is_vertical_scrollbar_present d w).snd.trace =
      w.trace ++ [Cmd.execScript scrollHeightScript,
                  Cmd.execScript clientHeightScript] := by
  rcases h1 : d.scrollHeight w.clock with e | sh
  · rw [show (is_vertical_scrollbar_present d w).fst = .error e by
      simp [is_vertical_scrollbar_present, h1, World.issue]] at h
    exact absurd h (by simp)
  · rcases h2 : d.clientHeight w.clock with e | ch
    · rw [show (is_vertical_scrollbar_present d w).fst = .error e by
        simp [is_vertical_scrollbar_present, h1, h2, World.issue]] at h
      exact absurd h (by simp)
    · simp [is_vertical_scrollbar_present, h1, h2, World.issue,
        List.append_assoc]

/-! ### Shape of the try blocks -/

lemma all_replicate_of (p : Cmd → Bool) (c : Cmd) (hp : p c = true)
    (k : Nat) : (List.replicate k c).all p = true := by
  induction k with
  | zero => simp
  | succ k ih => simp [List.replicate_succ, hp, ih]

lemma crawlingTryBlock_ok_shape (d : Driver) (w : World) (src : String)
    (w' : World) (h : crawlingTryBlock d w = (.ok src, w')) :
    ∃ (k : Nat) (b : Bool) (wq : World),
      (is_vertical_scrollbar_present d wq).fst = .ok b ∧
      w'.trace = w.trace
        ++ List.replicate k (Cmd.execScript readyStateScript)
        ++ [Cmd.sleep 5]
        ++ [Cmd.execScript scrollHeightScript,
            Cmd.execScript clientHeightScript]
        ++ (if b then [Cmd.execScript scrollToBottomScript] else [])
        ++ [Cmd.sleep 5] ++ [Cmd.getPageSource] ∧
      w.clock + 10 ≤ w'.clock := by
  simp only [crawlingTryBlock] at h
  obtain ⟨k, j, hwtr0, hwck0⟩ := wait_shape d w
  rcases hw : wait_until_page_ready d w with ⟨rw1, w2⟩
  rw [hw] at hwtr0 hwck0
  have hwtr : w2.trace =
      w.trace ++ List.replicate k (Cmd.execScript readyStateScript) := hwtr0
  have hwck : w2.clock = w.clock + j := hwck0
  simp only [hw] at h
  cases rw1 with
  | error e => simp at h
  | ok u =>
    have hvck0 := scrollbar_clock d (doSleep w2 5)
    rcases hv : is_vertical_scrollbar_present d (doSleep w2 5) with ⟨rv, w4⟩
    rw [hv] at hvck0
    have hvck : w4.clock = (doSleep w2 5).clock := hvck0
    simp only [hv] at h
    cases rv with
    | error e => simp at h
    | ok b =>
      have hvtr0 := scrollbar_ok_trace d (doSleep w2 5) b (by rw [hv])
      rw [hv] at hvtr0
      have hvtr : w4.trace = (doSleep w2 5).trace ++
          [Cmd.execScript scrollHeightScript,
           Cmd.execScript clientHeightScript] := hvtr0
      refine ⟨k, b, doSleep w2 5, by rw [hv], ?_⟩
      cases b with
      | true =>
        rcases hsc : d.scrollToBottom w4.clock with e | u2
        · simp [hsc] at h
        · rcases hps : d.pageSource (doSleep (w4.issue
              (.execScript scrollToBottomScript) 0) 5).clock with e | s
          · simp [hsc, hps] at h
          · simp [hsc, hps, Prod.mk.injEq, Except.ok.injEq] at h
            rw [← h.2]
            constructor
            · simp [World.issue, doSleep, hvtr, hwtr, List.append_assoc]
            · simp [World.issue, doSleep, hvck, hwck]
      | false =>
        rcases hps : d.pageSource (doSleep w4 5).clock with e | s
        · simp [hps] at h
        · simp [hps, Prod.mk.injEq, Except.ok.injEq] at h
          rw [← h.2]
          constructor
          · simp [World.issue, doSleep, hvtr, hwtr, List.append_assoc]
          · simp [World.issue, doSleep, hvck, hwck]

lemma crawlingTryBlock_shape (d : Driver) (w : World)
    (res : Except PyExc String) (wf : World)
    (h : crawlingTryBlock d w = (res, wf)) :
    ∃ delta, wf.trace = w.trace ++ delta ∧
      delta.all crawlAllowedCmd = true ∧
      w.clock ≤ wf.clock := by
  have hrep : ∀ n, (List.replicate n
      (Cmd.execScript readyStateScript)).all crawlAllowedCmd = true :=
    all_replicate_of _ _ (by decide)
  have hsl : crawlAllowedCmd (Cmd.sleep 5) = true := by decide
  have hscr : crawlAllowedCmd (Cmd.execScript scrollToBottomScript) = true :=
    by decide
  have hgps : crawlAllowedCmd Cmd.getPageSource = true := by decide
  simp only [crawlingTryBlock] at h
  obtain ⟨k, j, hwtr0, hwck0⟩ := wait_shape d w
  rcases hw : wait_until_page_ready d w with ⟨rw1, w2⟩
  rw [hw] at hwtr0 hwck0
  have hwtr : w2.trace =
      w.trace ++ List.replicate k (Cmd.execScript readyStateScript) := hwtr0
  have hwck : w2.clock = w.clock + j := hwck0
  simp only [hw] at h
  cases rw1 with
  | error e =>
    simp only [Prod.mk.injEq] at h
    rw [← h.2]
    exact ⟨List.replicate k (Cmd.execScript readyStateScript),
      hwtr, hrep k, by simp [hwck]⟩
  | ok u =>
    have hvck0 := scrollbar_clock d (doSleep w2 5)
    have hXex : ∃ X,
        (is_vertical_scrollbar_present d (doSleep w2 5)).snd.trace =
          (doSleep w2 5).trace ++ X ∧ X.all crawlAllowedCmd = true := by
      rcases scrollbar_trace d (doSleep w2 5) with htr | htr
      · exact ⟨_, htr, by decide⟩
      · exact ⟨_, htr, by decide⟩
    obtain ⟨X, hXtr0, hXall⟩ := hXex
    rcases hv : is_vertical_scrollbar_present d (doSleep w2 5) with ⟨rv, w4⟩
    rw [hv] at hvck0 hXtr0
    have hvck : w4.clock = (doSleep w2 5).clock := hvck0
    have hXtr : w4.trace = (doSleep w2 5).trace ++ X := hXtr0
    simp only [hv] at h
    cases rv with
    | error e =>
      simp only [Prod.mk.injEq] at h
      rw [← h.2]
      refine ⟨List.replicate k (Cmd.execScript readyStateScript)
          ++ [Cmd.sleep 5] ++ X, ?_, ?_, ?_⟩
      · simp [hXtr, doSleep, World.issue, hwtr, List.append_assoc]
      · simp [List.all_append, hrep k, hXall, hsl]
      · simp only [hvck, doSleep, World.issue, hwck]
        omega
    | ok b =>
      cases b with
      | true =>
        rcases hsc : d.scrollToBottom w4.clock with e | u2
        · simp [hsc] at h
          rw [← h.2]
          refine ⟨List.replicate k (Cmd.execScript readyStateScript)
              ++ [Cmd.sleep 5] ++ X
              ++ [Cmd.execScript scrollToBottomScript], ?_, ?_, ?_⟩
          · simp [hXtr, doSleep, World.issue, hwtr, List.append_assoc]
          · simp [List.all_append, hrep k, hXall, hsl, hscr]
          · simp only [hvck, doSleep, World.issue, hwck]
            omega
        · rcases hps : d.pageSource (doSleep (w4.issue
              (.execScript scrollToBottomScript) 0) 5).clock with e2 | s <;>
          · simp [hsc, hps] at h
            rw [← h.2]
            refine ⟨List.replicate k (Cmd.execScript readyStateScript)
              ++ [Cmd.sleep 5] ++ X
              ++ [Cmd.execScript scrollToBottomScript]
              ++ [Cmd.sleep 5] ++ [Cmd.getPageSource], ?_, ?_, ?_⟩
            · simp [hXtr, doSleep, World.issue, hwtr, List.append_assoc]
            · simp [List.all_append, hrep k, hXall, hsl, hscr, hgps]
            · simp only [hvck, doSleep, World.issue, hwck]
              omega
      | false =>
        rcases hps : d.pageSource (doSleep w4 5).clock with e2 | s <;>
        · simp [hps] at h
          rw [← h.2]
          refine ⟨List.replicate k (Cmd.execScript readyStateScript)
            ++ [Cmd.sleep 5] ++ X
            ++ [Cmd.sleep 5] ++ [Cmd.getPageSource], ?_, ?_, ?_⟩
          · simp [hXtr, doSleep, World.issue, hwtr, List.append_assoc]
          · simp [List.all_append, hrep k, hXall, hsl, hgps]
          · simp only [hvck, doSleep, World.issue, hwck]
            omega

lemma scrapingTryBlock_eq (d : Driver) (url : String) (w : World) :
    scrapingTryBlock d url w =
      match d.navigate url w.clock with
      | .error e => (.error e, w.issue (.navigate url) d.navDuration)
      | .ok _ => crawlingTryBlock d (w.issue (.navigate url) d.navDuration) := by
  rcases hn : d.navigate url w.clock with e | u <;>
    simp only [scrapingTryBlock, crawlingTryBlock, hn]

lemma scrapingTryBlock_clock (d : Driver) (url : String) (w : World)
    (res : Except PyExc String) (wf : World)
    (h : scrapingTryBlock d url w = (res, wf)) : w.clock ≤ wf.clock := by
  rw [scrapingTryBlock_eq] at h
  rcases hn : d.navigate url w.clock with e | u
  · simp only [hn] at h
    simp only [Prod.mk.injEq] at h
    rw [← h.2]
    simp [World.issue]
  · simp only [hn] at h
    obtain ⟨delta, htr, hall, hck⟩ := crawlingTryBlock_shape d _ res wf h
    have : (w.issue (.navigate url) d.navDuration).clock =
        w.clock + d.navDuration := rfl
    omega

lemma scrapingTryBlock_ok_shape (d : Driver) (url : String) (w : World)
    (src : String) (w' : World)
    (h : scrapingTryBlock d url w = (.ok src, w')) :
    ∃ (k : Nat) (b : Bool) (wq : World),
      (is_vertical_scrollbar_present d wq).fst = .ok b ∧
      w'.trace = w.trace ++ [Cmd.navigate url]
        ++ List.replicate k (Cmd.execScript readyStateScript)
        ++ [Cmd.sleep 5]
        ++ [Cmd.execScript scrollHeightScript,
            Cmd.execScript clientHeightScript]
        ++ (if b then [Cmd.execScript scrollToBottomScript] else [])
        ++ [Cmd.sleep 5] ++ [Cmd.getPageSource] ∧
      w.clock + 10 ≤ w'.clock := by
  rw [scrapingTryBlock_eq] at h
  rcases hn : d.navigate url w.clock with e | u
  · simp [hn] at h
  · simp only [hn] at h
    obtain ⟨k, b, wq, hq, htr, hck⟩ :=
      crawlingTryBlock_ok_shape d _ src w' h
    refine ⟨k, b, wq, hq, ?_, ?_⟩
    · rw [htr]
      simp [World.issue, List.append_assoc]
    · have : (w.issue (.navigate url) d.navDuration).clock =
          w.clock + d.navDuration := rfl
      omega

lemma get_scraping_result_snd (url : String) (g : Bool) (d : Driver)
    (w : World) :
    (get_scraping_result url g d w).snd = (scrapingTryBlock d url w).snd := by
  rcases h : scrapingTryBlock d url w with ⟨res, w'⟩
  cases res <;> simp [get_scraping_result, h]

lemma get_crawling_scraping_result_snd (url : String) (d : Driver)
    (w : World) :
    (get_crawling_scraping_result url d w).snd =
      (crawlingTryBlock d w).snd := by
  rcases h : crawlingTryBlock d w with ⟨res, w'⟩
  cases res <;> simp [get_crawling_scraping_result, h]

lemma countP_replicate_zero (p : Cmd → Bool) (c : Cmd) (hp : p c = false)
    (n : Nat) : (List.replicate n c).countP p = 0 := by
  induction n with
  | zero => simp
  | succ n ih => simp [List.replicate_succ, List.countP_cons, hp, ih]

/-- C3 — For every input and every exception any fetch step raises, the
fetch never propagates: it returns the full six-key record, with the
failure encoded in-band in `is_error` and `exception_raised` (success
encoded as `is_error` false). -/
theorem C3_never_propagates (url : String) (g : Bool) (d : Driver)
    (w : World) :
    ((get_scraping_result url g d w).fst.map Prod.fst =
      ["web_url", "is_gambling_site", "is_error", "scraped_elements",
       "scraping_initiation_time", "exception_raised"]) ∧
    (∀ src, (scrapingTryBlock d url w).fst = .ok src →
      dictGet "is_error" (get_scraping_result url g d w).fst =
        some (.vBool false)) ∧
    (∀ e, (scrapingTryBlock d url w).fst = .error e →
      dictGet "is_error" (get_scraping_result url g d w).fst =
        some (.vBool true) ∧
      dictGet "exception_raised" (get_scraping_result url g d w).fst =
        some (handleScrapingExc e)) := by
  rcases h : scrapingTryBlock d url w with ⟨res, w'⟩
  cases res with
  | ok s =>
    simp only [get_scraping_result, h]
    refine ⟨rfl, fun src hsrc => dictGet_provide_is_error .., fun e he => ?_⟩
    simp at he
  | error e0 =>
    simp only [get_scraping_result, h]
    refine ⟨rfl, fun src hsrc => ?_, fun e he => ?_⟩
    · simp at hsrc
    · have he0 : e0 = e := by simpa using he
      subst he0
      exact ⟨dictGet_provide_is_error .., dictGet_provide_exc ..⟩

/-- Witness for C3: a failed navigation still yields a full record with the
error recorded in-band, and a successful run records success in-band. -/
theorem C3_never_propagates_witness :
    (dictGet "is_error"
      (get_scraping_result "http://a" true navFailDriver w0).fst =
        some (.vBool true) ∧
     dictGet "exception_raised"
      (get_scraping_result "http://a" true navFailDriver w0).fst =
        some (handleScrapingExc (.otherError "unreachable host"))) ∧
    dictGet "is_error"
      (get_scraping_result "http://b" false okDriver w0).fst =
        some (.vBool false) :=
  ⟨(C3_never_propagates "http://a" true navFailDriver w0).2.2
      (.otherError "unreachable host") rfl,
   (C3_never_propagates "http://b" false okDriver w0).2.1
      "<html></html>" rfl⟩

/-- C2 as stated fails: after a ready-state wait timeout the error field
holds the string "Timeout Exception", not the claimed classification
"Timeout". -/
theorem C2_timeout_label_counterexample :
    dictGet "is_error"
      (get_scraping_result "http://a" true timeoutDriver w0).fst =
        some (.vBool true) ∧
    dictGet "exception_raised"
      (get_scraping_result "http://a" true timeoutDriver w0).fst ≠
        some (.vStr "Timeout") ∧
    dictGet "exception_raised"
      (get_scraping_result "http://a" true timeoutDriver w0).fst =
        some (.vStr "Timeout Exception") := by
  refine ⟨rfl, ?_, rfl⟩
  decide

/-- C2 amended — whenever the fetch attempt raises `TimeoutException` (in
particular when the ready-state wait times out), the record has `is_error`
true, `scraped_elements` `None`, and `exception_raised` equal to the string
"Timeout Exception"; any other exception — including
`NoSuchElementException`, which this variant's generic handler catches —
stores the raw exception value itself. -/
theorem C2_timeout_error_field (url : String) (g : Bool) (d : Driver)
    (w : World) :
    ((scrapingTryBlock d url w).fst = .error .timeoutException →
      dictGet "is_error" (get_scraping_result url g d w).fst =
        some (.vBool true) ∧
      dictGet "scraped_elements" (get_scraping_result url g d w).fst =
        some .vNone ∧
      dictGet "exception_raised" (get_scraping_result url g d w).fst =
        some (.vStr "Timeout Exception")) ∧
    (∀ e, (scrapingTryBlock d url w).fst = .error e →
      e ≠ .timeoutException →
      dictGet "exception_raised" (get_scraping_result url g d w).fst =
        some (.vExc e)) := by
  rcases h : scrapingTryBlock d url w with ⟨res, w'⟩
  cases res with
  | ok s =>
    constructor
    · intro hto
      simp at hto
    · intro e he hne
      simp at he
  | error e0 =>
    constructor
    · intro hto
      have he0 : e0 = .timeoutException := by simpa using hto
      subst he0
      simp only [get_scraping_result, h]
      exact ⟨dictGet_provide_is_error .., dictGet_provide_scraped ..,
        dictGet_provide_exc ..⟩
    · intro e he hne
      have he0 : e0 = e := by simpa using he
      subst he0
      simp only [get_scraping_result, h]
      rw [dictGet_provide_exc]
      cases e0 with
      | timeoutException => exact absurd rfl hne
      | noSuchElementException => rfl
      | otherError m => rfl

/-- Witness for C2 amended: a stuck page yields the "Timeout Exception"
string, and a `NoSuchElementException` raised during source retrieval —
caught by the generic handler in this variant — stores the raw exception
value. -/
theorem C2_timeout_error_field_witness :
    (dictGet "is_error"
        (get_scraping_result "http://a" true timeoutDriver w0).fst =
          some (.vBool true) ∧
      dictGet "scraped_elements"
        (get_scraping_result "http://a" true timeoutDriver w0).fst =
          some .vNone ∧
      dictGet "exception_raised"
        (get_scraping_result "http://a" true timeoutDriver w0).fst =
          some (.vStr "Timeout Exception")) ∧
    dictGet "exception_raised"
      (get_scraping_result "http://b" false noElementDriver w0).fst =
        some (.vExc .noSuchElementException) :=
  ⟨(C2_timeout_error_field "http://a" true timeoutDriver w0).1 rfl,
   (C2_timeout_error_field "http://b" false noElementDriver w0).2
      .noSuchElementException rfl (by decide)⟩

/-- C4 as stated fails: in the crawling variant a missing-element exception
yields the string "The web is not loaded", not the claimed classification
"ElementNotFound". -/
theorem C4_missing_element_label_counterexample :
    dictGet "is_error"
      (get_crawling_scraping_result "http://a" noElementDriver w0).fst =
        some (.vBool true) ∧
    dictGet "exception_raised"
      (get_crawling_scraping_result "http://a" noElementDriver w0).fst ≠
        some (.vStr "ElementNotFound") ∧
    dictGet "exception_raised"
      (get_crawling_scraping_result "http://a" noElementDriver w0).fst =
        some (.vStr "The web is not loaded") := by
  refine ⟨rfl, ?_, rfl⟩
  decide

/-- C4 amended — in the crawling variant, a `NoSuchElementException` raised
during the steps yields `is_error` true, `scraped_elements` `None`, and
`exception_raised` equal to the string "The web is not loaded". -/
theorem C4_missing_element_label (url : String) (d : Driver) (w : World) :
    (crawlingTryBlock d w).fst = .error .noSuchElementException →
    dictGet "is_error" (get_crawling_scraping_result url d w).fst =
      some (.vBool true) ∧
    dictGet "scraped_elements" (get_crawling_scraping_result url d w).fst =
      some .vNone ∧
    dictGet "exception_raised" (get_crawling_scraping_result url d w).fst =
      some (.vStr "The web is not loaded") := by
  intro hns
  rcases h : crawlingTryBlock d w with ⟨res, w'⟩
  rw [h] at hns
  cases res with
  | ok s => simp at hns
  | error e0 =>
    have he0 : e0 = .noSuchElementException := by simpa using hns
    subst he0
    simp only [get_crawling_scraping_result, h]
    exact ⟨rfl, rfl, rfl⟩

/-- Witness for C4 amended: a crawl whose source retrieval raises
`NoSuchElementException`. -/
theorem C4_missing_element_label_witness :
    dictGet "is_error"
      (get_crawling_scraping_result "http://w" noElementDriver w0).fst =
        some (.vBool true) ∧
    dictGet "scraped_elements"
      (get_crawling_scraping_result "http://w" noElementDriver w0).fst =
        some .vNone ∧
    dictGet "exception_raised"
      (get_crawling_scraping_result "http://w" noElementDriver w0).fst =
        some (.vStr "The web is not loaded") :=
  C4_missing_element_label "http://w" noElementDriver w0 rfl

/-- C7 — In every successful fetch the scroll-to-bottom script is issued
exactly once when the scrollbar query for the loaded page reported true,
and never when it reported false. -/
theorem C7_scroll_issued_iff_scrollable (url : String) (g : Bool)
    (d : Driver) (w : World) :
    dictGet "is_error" (get_scraping_result url g d w).fst =
      some (.vBool false) →
    ∃ (b : Bool) (wq : World),
      (is_vertical_scrollbar_present d wq).fst = .ok b ∧
      scrollCount (get_scraping_result url g d w).snd.trace =
        scrollCount w.trace + (if b then 1 else 0) := by
  intro hok
  rcases h : scrapingTryBlock d url w with ⟨res, w'⟩
  have hsnd : (get_scraping_result url g d w).snd = w' := by
    cases res <;> simp [get_scraping_result, h]
  cases res with
  | error e =>
    simp only [get_scraping_result, h] at hok
    rw [dictGet_provide_is_error] at hok
    simp at hok
  | ok src =>
    obtain ⟨k, b, wq, hq, htr, hck⟩ :=
      scrapingTryBlock_ok_shape d url w src w' h
    refine ⟨b, wq, hq, ?_⟩
    rw [hsnd, htr]
    have hrep0 : (List.replicate k
        (Cmd.execScript readyStateScript)).countP
          (fun c => decide (c = Cmd.execScript scrollToBottomScript)) = 0 :=
      countP_replicate_zero _ _ (by decide) k
    cases b with
    | true =>
      simp [scrollCount, List.countP_append, hrep0, List.countP_cons]
      decide
    | false =>
      simp [scrollCount, List.countP_append, hrep0, List.countP_cons]
      decide

/-- Witness for C7: a successful fetch of a scrollable page issues the
scroll script exactly once. -/
theorem C7_scroll_issued_iff_scrollable_witness :
    ∃ (b : Bool) (wq : World),
      (is_vertical_scrollbar_present okDriver wq).fst = .ok b ∧
      scrollCount (get_scraping_result "http://a" true okDriver w0).snd.trace =
        scrollCount w0.trace + (if b then 1 else 0) :=
  C7_scroll_issued_iff_scrollable "http://a" true okDriver w0 rfl

/-- C9 — The timestamp stored under `scraping_initiation_time` is read at
completion of the fetch attempt: it equals the clock after all steps and
error handling, is never before the clock at initiation, and on success is
at least ten time units after initiation (the two five-unit sleeps), so it
is an end-time despite the field name. -/
theorem C9_timestamp_at_completion (url : String) (g : Bool) (d : Driver)
    (w : World) :
    dictGet "scraping_initiation_time" (get_scraping_result url g d w).fst =
      some (.vTime (get_scraping_result url g d w).snd.clock) ∧
    w.clock ≤ (get_scraping_result url g d w).snd.clock ∧
    (dictGet "is_error" (get_scraping_result url g d w).fst =
        some (.vBool false) →
      w.clock + 10 ≤ (get_scraping_result url g d w).snd.clock) := by
  rcases h : scrapingTryBlock d url w with ⟨res, w'⟩
  have hsnd : (get_scraping_result url g d w).snd = w' := by
    cases res <;> simp [get_scraping_result, h]
  have hmono : w.clock ≤ w'.clock := scrapingTryBlock_clock d url w res w' h
  cases res with
  | error e =>
    simp only [get_scraping_result, h]
    refine ⟨dictGet_provide_time .., hmono, fun hfalse => ?_⟩
    rw [dictGet_provide_is_error] at hfalse
    simp at hfalse
  | ok src =>
    obtain ⟨k, b, wq, hq, htr, hck⟩ :=
      scrapingTryBlock_ok_shape d url w src w' h
    simp only [get_scraping_result, h]
    exact ⟨dictGet_provide_time .., hmono, fun _ => hck⟩

/-- Witness for C9: on a concrete successful run the recorded timestamp is
the completion clock, at least ten units after initiation. -/
theorem C9_timestamp_at_completion_witness :
    dictGet "scraping_initiation_time"
      (get_scraping_result "http://a" true okDriver w0).fst =
        some (.vTime (get_scraping_result "http://a" true okDriver w0).snd.clock) ∧
    w0.clock ≤ (get_scraping_result "http://a" true okDriver w0).snd.clock ∧
    w0.clock + 10 ≤ (get_scraping_result "http://a" true okDriver w0).snd.clock :=
  ⟨(C9_timestamp_at_completion "http://a" true okDriver w0).1,
   (C9_timestamp_at_completion "http://a" true okDriver w0).2.1,
   (C9_timestamp_at_completion "http://a" true okDriver w0).2.2 rfl⟩

/-- C10 — The crawling variant issues no navigation command: every command
it adds to the trace is a ready-state poll, a height query, the scroll
command, a sleep, or source retrieval; and its record has exactly the five
keys `web_url`, `is_error`, `scraped_elements`, `scraping_initiation_time`,
`exception_raised`, with no gambling-classification key. -/
theorem C10_crawl_no_navigation (url : String) (d : Driver) (w : World) :
    ((get_crawling_scraping_result url d w).fst.map Prod.fst =
      ["web_url", "is_error", "scraped_elements",
       "scraping_initiation_time", "exception_raised"]) ∧
    (((get_crawling_scraping_result url d w).fst.map Prod.fst).contains
      "is_gambling_site" = false) ∧
    (((get_crawling_scraping_result url d w).snd.trace.drop
      w.trace.length).all crawlAllowedCmd = true) := by
  rcases h : crawlingTryBlock d w with ⟨res, wf⟩
  obtain ⟨delta, htr, hall, hck⟩ := crawlingTryBlock_shape d w res wf h
  have hsnd : (get_crawling_scraping_result url d w).snd = wf := by
    cases res <;> simp [get_crawling_scraping_result, h]
  have hkeys : (get_crawling_scraping_result url d w).fst.map Prod.fst =
      ["web_url", "is_error", "scraped_elements",
       "scraping_initiation_time", "exception_raised"] := by
    cases res <;> simp [get_crawling_scraping_result, h]
  refine ⟨hkeys, ?_, ?_⟩
  · rw [hkeys]
    rfl
  · rw [hsnd, htr, List.drop_left]
    exact hall

end GambleSniffer
